import Mathlib

/-!
Verification development for the SaveSubmission action
(src/src/actions/SaveSubmission.js of the formio repository).

The action's `resolve` method is embedded as a total function over explicit
state: requests, bodies and submissions are structures, JSON-like data trees
are the inductive `Value`, the lodash path helpers (`_.get`, `_.set`, `_.has`)
are recursive functions on `Value`, and the external collaborators that the
source calls through `router.formio` (the form/submission cache and the
resourcejs handler registry) are fields of an `Env` parameter.  Code of the
repository that the excerpt only calls — `util.createSubRequest` and the
`@formio/vm` IsolateVM — is modelled from the spec, as marked on each such
definition.
-/

/-- A JSON-like value: the shape of `submission.data` and of request bodies. -/
inductive Value where
  | null : Value
  | bool : Bool → Value
  | num : Int → Value
  | str : String → Value
  | obj : List (String × Value) → Value
  | arr : List Value → Value

/-- Lookup of a key among an object's fields (JS property read). -/
def objGet : List (String × Value) → String → Option Value
  | [], _ => none
  | (k', v) :: rest, k => if k' = k then some v else objGet rest k

/-- Write of a key among an object's fields (JS property write): replaces the
existing entry in place, or appends a new entry at the end. -/
def objSet : List (String × Value) → String → Value → List (String × Value)
  | [], k, v => [(k, v)]
  | (k', v') :: rest, k, v =>
    if k' = k then (k, v) :: rest else (k', v') :: objSet rest k v

/-- Splits a dotted lodash path such as `a.b.c` into its segments.  The
settings of this action use plain dotted paths, for which lodash's
`stringToPath` coincides with splitting on the dot character. -/
def splitPathAux : List Char → List Char → List String
  | [], acc => [String.mk acc.reverse]
  | c :: cs, acc =>
    if c = '.' then String.mk acc.reverse :: splitPathAux cs [] else splitPathAux cs (c :: acc)

def splitPath (p : String) : List String := splitPathAux p.data []

/-- Lodash `_.get object path`: walks the path through nested objects,
yielding `none` (JS `undefined`) when a segment is missing or the current
value is not an object. -/
def Value.getPath : Value → List String → Option Value
  | v, [] => some v
  | Value.obj fs, k :: ks =>
    match objGet fs k with
    | some v => Value.getPath v ks
    | none => none
  | _, _ :: _ => none

/-- Lodash `_.has object path`, specialised to the object trees used here:
the path resolves to a present property. -/
def Value.hasPath (v : Value) (ks : List String) : Bool := (Value.getPath v ks).isSome

/-- Lodash `_.set object path value`: writes `value` at `path`, creating
fresh empty objects for missing or non-object intermediate values
(auto-vivification), and leaving a non-object root unchanged. -/
def Value.setPath : Value → List String → Value → Value
  | _, [], nv => nv
  | Value.obj fs, k :: ks, nv =>
    let child := match objGet fs k with
      | some (Value.obj cfs) => Value.obj cfs
      | _ => Value.obj []
    Value.obj (objSet fs k (Value.setPath child ks nv))
  | v, _ :: _, _ => v

example : splitPath "a.b" = ["a", "b"] := by decide
example : splitPath "data" = ["data"] := by decide

/-- An entry of a submission's `externalIds` sequence. -/
structure ExternalId where
  type : String
  resource : String
  id : String
deriving DecidableEq

/-- A submission object: the shape of the child submission built or loaded by
`loadSubmission`, and of the items returned by the resource handlers. -/
structure Submission where
  _id : Option String
  data : Value
  roles : List String
  externalIds : List ExternalId

/-- The primary request body (`req.body`).  `externalIds` is an `Option` so
that the source's `req.body.externalIds || []` default is visible. -/
structure ReqBody where
  _id : Option String
  form : Option String
  data : Value
  externalIds : Option (List ExternalId)

/-- The slice of the inbound Express request that `resolve` reads or writes.
`subRequestDepth` is the clone depth/ancestry that `util.createSubRequest`
tracks on the request (modelled from the spec, see `createSubRequest`). -/
structure Request where
  method : String
  skipSave : Bool
  skipResource : Bool
  body : Option ReqBody
  subRequestDepth : Nat

/-- The target resource definition returned by `loadForm`; only its `_id` is
consumed (`childReq.formId = resource._id.toString()`). -/
structure Resource where
  _id : String

/-- A user transform script together with its meaning.  The source stores only
the text (`settings.transform`); the script is executed by the external
`@formio/vm` IsolateVM, so its JS meaning is carried alongside the text as the
function `sem`, mapping the values of the script variables `data` and
`submission` at the start of the user-authored part to the value of `data` at
its end, or to a contained failure (a throw or a timeout). -/
structure UserScript where
  src : String
  sem : Value → Value → Except String Value

/-- The action settings (`this.settings`): `fields` keeps the JS object's
insertion order as a list of `(key, field)` pairs, iterated in order by
`_.each`. -/
structure Settings where
  resource : Option String
  property : Option String
  fields : List (String × String)
  transform : Option UserScript

/-- The synthetic child request built by `saveToResource`. -/
structure ChildReq where
  permissionsChecked : Bool
  noResponse : Bool
  body : Submission
  formId : String
  subId : Option String
  url : String
  method : String
  depth : Nat

/-- Record of one dispatch through the resourcejs registry: the `(url, method)`
pair used for the lookup and the child request handed to the handler. -/
structure DispatchRecord where
  url : String
  method : String
  childReq : ChildReq

/-- The external collaborators of `resolve`: `router.formio.cache.loadForm`
(specialised to the `'resource'` kind), `router.formio.cache.loadSubmission`
(keyed by form id and submission id), and the `router.resourcejs` handler
registry keyed by url pattern and lowercased method.  A handler either saves
and returns the child item that it places on `res.resource.item`, or fails. -/
structure Env where
  loadForm : String → Option Resource
  loadSubmission : String → String → Option Submission
  handlers : String → String → Option (ChildReq → Except String Submission)

namespace ecode

def EREQRECUR : String := "EREQRECUR"

def ENOIDP : String := "ENOIDP"

def ENOHANDLER : String := "ENOHANDLER"

def EFORMLOAD : String := "EFORMLOAD"

def ESUBLOAD : String := "ESUBLOAD"

end ecode

/-- JS `String.prototype.toLowerCase` on the ASCII method names used here. -/
def methodToLower (s : String) : String := String.mk (s.data.map Char.toLower)

/-- JS `String.prototype.toUpperCase` on the ASCII method names used here. -/
def methodToUpper (s : String) : String := String.mk (s.data.map Char.toUpper)

example : methodToLower "PUT" = "put" := by decide
example : methodToLower "POST" = "post" := by decide
example : methodToLower "PATCH" = "patch" := by decide
example : methodToUpper "put" = "PUT" := by decide

/-- Serialisation of an `ExternalId` as the JS object the sandbox would see. -/
def ExternalId.toValue (e : ExternalId) : Value :=
  Value.obj [("type", Value.str e.type), ("resource", Value.str e.resource),
             ("id", Value.str e.id)]

/-- Serialisation of a `Submission` as the JS object the sandbox would see. -/
def Submission.toValue (s : Submission) : Value :=
  Value.obj ((match s._id with
      | some i => [("_id", Value.str i)]
      | none => []) ++
    [("data", s.data), ("roles", Value.arr (s.roles.map Value.str)),
     ("externalIds", Value.arr (s.externalIds.map ExternalId.toValue))])

/-- Serialisation of the request body as the JS object the sandbox would see. -/
def ReqBody.toValue (b : ReqBody) : Value :=
  Value.obj ((match b._id with
      | some i => [("_id", Value.str i)]
      | none => []) ++
    (match b.form with
      | some f => [("form", Value.str f)]
      | none => []) ++
    [("data", b.data)] ++
    (match b.externalIds with
      | some xs => [("externalIds", Value.arr (xs.map ExternalId.toValue))]
      | none => []))

/-- The script text built at SaveSubmission.js line 209:
`data=submission.data;` newline, the user transform text, newline, `data;`. -/
def buildTransformScript (transform : String) : String :=
  "data=submission.data;" ++ "\n" ++ transform ++ "\n" ++ "data;"

/-- Modelled from the spec: the `@formio/vm` IsolateVM sandbox evaluator
(SandboxEvaluator, not part of the excerpt).  It executes
`buildTransformScript u.src` with the two injected bindings `submission` and
`data`, wall-clock bounded; a throw or a timeout is a contained failure.
Under JS semantics the executed text first runs the prelude
`data=submission.data;`, assigning the `submission` binding's `data` member to
the script variable `data` (and thereby discarding the injected `data`
binding), then runs the user-authored part (denoted by `u.sem`), and finally
yields the value of `data`. -/
def vmEvaluate (u : UserScript) (submissionB dataB : Value) : Except String Value :=
  let d0 := match Value.getPath submissionB ["data"] with
    | some d => d
    | none => Value.null
  u.sem d0 submissionB

/-- The `submission` binding passed to the sandbox (SaveSubmission.js line
211): `res.resource.item` when the response already carries a saved item,
otherwise the primary request body. -/
def submissionBinding (body : ReqBody) (resItem : Option Submission) : Value :=
  match resItem with
  | some s => Submission.toValue s
  | none => ReqBody.toValue body

/-- The field-merge loop of `updateSubmission` (SaveSubmission.js lines
197-204): for each configured `(key, field)` pair in order, when `field` is
the literal `"data"` write the primary's whole `data` tree at path `key`,
otherwise copy the primary's value at path `field` to path `key` when present
(`_.has`), and skip the pair when absent. -/
def mergeFields (fields : List (String × String)) (primaryData : Value) (d0 : Value) : Value :=
  fields.foldl (fun d kv =>
    if kv.2 = "data" then Value.setPath d (splitPath kv.1) primaryData
    else match Value.getPath primaryData (splitPath kv.2) with
      | some v => Value.setPath d (splitPath kv.1) v
      | none => d) d0

/-- The transform stage of `updateSubmission` (SaveSubmission.js lines
206-221): skipped when `settings.transform` is absent or empty (JS
truthiness); on success the child's `data` is replaced by the evaluator's
output; on a contained failure (throw or timeout) the error is only logged
and the child's `data` is left as merged. -/
def runTransform (settings : Settings) (body : ReqBody) (resItem : Option Submission)
    (sub : Submission) : Submission :=
  match settings.transform with
  | none => sub
  | some u =>
    if u.src = "" then sub
    else
      match vmEvaluate u (submissionBinding body resItem) sub.data with
      | Except.ok newData => { sub with data := newData }
      | Except.error _ => sub

/-- `updateSubmission` (SaveSubmission.js lines 192-224): default the child's
`data` to an empty object (`submission.data || {}`), run the field-merge
loop, then the transform stage. -/
def updateSubmission (settings : Settings) (body : ReqBody) (resItem : Option Submission)
    (sub : Submission) : Submission :=
  let d0 := match sub.data with
    | Value.null => Value.obj []
    | d => d
  runTransform settings body resItem { sub with data := mergeFields settings.fields body.data d0 }

/-- The fresh child submission built for create-style methods
(SaveSubmission.js line 233). -/
def freshSubmission : Submission :=
  { _id := none, data := Value.obj [], roles := [], externalIds := [] }

/-- Modelled from the spec: `util.createSubRequest` (src/util/util.js, which
is not part of the excerpt) clones the inbound request into a sub-request,
tracking clone depth/ancestry on the parent request; it fails (returns
nothing) when the depth tracked on the parent has reached the configured
bound, which is how recursing into the same submission chain is cut off.  On
success the clone carries the incremented depth, returned here. -/
def createSubRequest (bound : Nat) (req : Request) : Option Nat :=
  if req.subRequestDepth < bound then some (req.subRequestDepth + 1) else none

/-- The registry dispatch of `saveToResource` (SaveSubmission.js lines
122-138): look up `router.resourcejs[url][method]` with the lowercased
method; a missing handler is the fatal `ENOHANDLER`; otherwise the handler is
invoked with the child request and its callback outcome is the stage's
outcome (on success the saved item lands on `res.resource.item`). -/
def dispatchChild (env : Env) (url m : String) (c : ChildReq) :
    Option DispatchRecord × Except String (Option Submission) :=
  match env.handlers url m with
  | none => (none, Except.error ecode.ENOHANDLER)
  | some h =>
    match h c with
    | Except.ok saved => (some { url := url, method := m, childReq := c }, Except.ok (some saved))
    | Except.error e => (some { url := url, method := m, childReq := c }, Except.error e)

/-- `saveToResource` (SaveSubmission.js lines 79-139): a missing body is a
silent success; a failed clone is the fatal `EREQRECUR`; for the lowercased
method `put` a child body without `_id` is the fatal `ENOIDP`, and with an
`_id` the url gains the `/:submissionId` suffix; then the child request is
dispatched through the registry.  The first component records the dispatch
that took place, if any. -/
def saveToResource (env : Env) (bound : Nat) (req : Request) (resource : Resource)
    (body : Option Submission) : Option DispatchRecord × Except String (Option Submission) :=
  match body with
  | none => (none, Except.ok none)
  | some b =>
    match createSubRequest bound req with
    | none => (none, Except.error ecode.EREQRECUR)
    | some depth1 =>
      let url0 := "/form/:formId/submission"
      let m := methodToLower req.method
      if m = "put" then
        match b._id with
        | none => (none, Except.error ecode.ENOIDP)
        | some i =>
          dispatchChild env "/form/:formId/submission/:submissionId" m
            { permissionsChecked := true, noResponse := true, body := b,
              formId := resource._id, subId := some i,
              url := "/form/:formId/submission/:submissionId",
              method := methodToUpper m, depth := depth1 }
      else
        dispatchChild env url0 m
          { permissionsChecked := true, noResponse := true, body := b,
            formId := resource._id, subId := none, url := url0,
            method := methodToUpper m, depth := depth1 }

/-- The `_.find(currentSubmission.externalIds, {type: 'resource', resource:
this.settings.resource})` lookup (SaveSubmission.js lines 249-252): the first
record matching both fields. -/
def findExternal (xs : List ExternalId) (rid : String) : Option ExternalId :=
  xs.find? (fun e => e.type == "resource" && e.resource == rid)

/-- `loadSubmission` (SaveSubmission.js lines 232-268).  Result: the value of
`cache.submission` (`none` when the stage is a no-op) or a fatal error, paired
with the number of `loadSubmission` cache reads performed.  For a method other
than `PUT` the fresh child is merged and transformed; for `PUT` a body
without `_id` or without `form` is a no-op; a missing primary submission makes
the first cache read throw, caught and logged as `ESUBLOAD` and surfaced as
the stage's error; a missing matching external id record, or a missing linked
child, is a no-op; otherwise the loaded child is merged and transformed. -/
def loadSubmissionStage (env : Env) (settings : Settings) (rid : String) (req : Request)
    (body : ReqBody) (resItem0 : Option Submission) :
    Except String (Option Submission) × Nat :=
  if req.method ≠ "PUT" then
    (Except.ok (some (updateSubmission settings body resItem0 freshSubmission)), 0)
  else if body._id = none ∨ body.form = none then
    (Except.ok none, 0)
  else
    match env.loadSubmission (body.form.getD "") (body._id.getD "") with
    | none => (Except.error ecode.ESUBLOAD, 1)
    | some current =>
      match findExternal current.externalIds rid with
      | none => (Except.ok none, 1)
      | some ext =>
        match env.loadSubmission rid ext.id with
        | none => (Except.ok none, 2)
        | some sub => (Except.ok (some (updateSubmission settings body resItem0 sub)), 2)

/-- JS property write `req.body.data[p] = v`: a single-key write, with a
non-object target left unchanged. -/
def setKey (v : Value) (k : String) (nv : Value) : Value :=
  match v with
  | Value.obj fs => Value.obj (objSet fs k nv)
  | other => other

/-- `assignResource` (SaveSubmission.js lines 162-183): when
`settings.property` is set, write the saved child (or, when no save occurred,
the cached child) into `req.body.data[property]`; when the method is `POST`
and the response carries a saved item, append one external id record for the
configured resource to `req.body.externalIds` (defaulted to an empty
sequence), with the saved child's id. -/
def assignResource (settings : Settings) (rid : String) (method : String) (body : ReqBody)
    (resItem : Option Submission) (cacheSub : Submission) : ReqBody :=
  let resource : Submission := match resItem with
    | some s => s
    | none => cacheSub
  let b1 := match settings.property with
    | some p => { body with data := setKey body.data p (Submission.toValue resource) }
    | none => body
  match resItem with
  | some saved =>
    if method = "POST" then
      { b1 with
        externalIds := some ((match b1.externalIds with
            | some xs => xs
            | none => []) ++
          [{ type := "resource", resource := rid,
             id := match saved._id with
               | some i => i
               | none => "" }]) }
    else b1
  | none => b1

/-- Everything `resolve` leaves behind: the final request, the error handed to
`next` (`none` on success), the registry dispatch performed (if any), the
final `res.resource.item`, and counters of the cache reads performed
(instrumentation for the frame claims; the source performs a read exactly
where the model increments a counter). -/
structure ResolveResult where
  req : Request
  error : Option String
  dispatched : Option DispatchRecord
  resItem : Option Submission
  formLoads : Nat
  subLoads : Nat

/-- The immediate `next()` of the applicability gates: nothing touched. -/
def passThrough (req : Request) (resItem0 : Option Submission) : ResolveResult :=
  { req := req, error := none, dispatched := none, resItem := resItem0,
    formLoads := 0, subLoads := 0 }

/-- `resolve` (SaveSubmission.js lines 61-290).  Gates in source order:
`req.skipSave`, a missing body, a method other than POST/PUT/PATCH — each an
immediate `next()`.  Then `req.skipResource = false`; missing settings or a
missing `settings.resource` is an immediate `next()`.  Then
`req.skipResource = true`, and the `async.series` pipeline: `loadResource`
(one `loadForm` read; a miss is fatal, logged as `EFORMLOAD`), the
`loadSubmission` stage, then — only when `cache.submission` was produced —
`saveToResource` followed by `assignResource`, any error short-circuiting to
`next(err)`. -/
def resolve (env : Env) (bound : Nat) (settings : Settings) (req : Request)
    (resItem0 : Option Submission) : ResolveResult :=
  if req.skipSave then passThrough req resItem0
  else
    match req.body with
    | none => passThrough req resItem0
    | some body =>
      if req.method ≠ "POST" ∧ req.method ≠ "PUT" ∧ req.method ≠ "PATCH" then
        passThrough req resItem0
      else
        let req1 : Request := { req with skipResource := false }
        match settings.resource with
        | none => passThrough req1 resItem0
        | some rid =>
          let req2 : Request := { req1 with skipResource := true }
          match env.loadForm rid with
          | none =>
            { req := req2, error := some ecode.EFORMLOAD, dispatched := none,
              resItem := resItem0, formLoads := 1, subLoads := 0 }
          | some resource =>
            match loadSubmissionStage env settings rid req2 body resItem0 with
            | (Except.error e, sl) =>
              { req := req2, error := some e, dispatched := none, resItem := resItem0,
                formLoads := 1, subLoads := sl }
            | (Except.ok none, sl) =>
              { req := req2, error := none, dispatched := none, resItem := resItem0,
                formLoads := 1, subLoads := sl }
            | (Except.ok (some cs), sl) =>
              match saveToResource env bound req2 resource (some cs) with
              | (disp, Except.error e) =>
                { req := req2, error := some e, dispatched := disp, resItem := resItem0,
                  formLoads := 1, subLoads := sl }
              | (disp, Except.ok savedOpt) =>
                let resItem1 := match savedOpt with
                  | some s => some s
                  | none => resItem0
                let body2 := assignResource settings rid req2.method body resItem1 cs
                { req := { req2 with body := some body2 }, error := none, dispatched := disp,
                  resItem := resItem1, formLoads := 1, subLoads := sl }

/-- Concrete fixtures used by the closed witnesses and counterexamples. -/
def emptyEnv : Env :=
  { loadForm := fun _ => none, loadSubmission := fun _ _ => none,
    handlers := fun _ _ => none }

def resourceR : Resource := { _id := "RF" }

def savedChildY : Submission :=
  { _id := some "y", data := Value.obj [], roles := [], externalIds := [] }

/-- An environment whose registry serves only the create endpoint, saving a
child with id `y`. -/
def postHandlerEnv : Env :=
  { loadForm := fun _ => some resourceR,
    loadSubmission := fun _ _ => none,
    handlers := fun url m =>
      if url = "/form/:formId/submission" ∧ m = "post" then
        some (fun _ => Except.ok savedChildY)
      else none }

def settingsR : Settings :=
  { resource := some "R", property := none, fields := [], transform := none }

def bodyEmpty : ReqBody :=
  { _id := none, form := none, data := Value.obj [], externalIds := none }

theorem objGet_objSet_self (fs : List (String × Value)) (k : String) (v : Value) :
    objGet (objSet fs k v) k = some v := by
  induction fs with
  | nil => simp [objSet, objGet]
  | cons p rest ih =>
    obtain ⟨k', v'⟩ := p
    by_cases h : k' = k
    · simp [objSet, objGet, h]
    · simp [objSet, objGet, h, ih]

theorem getPath_setPath (ks : List String) (fs : List (String × Value)) (v : Value) :
    Value.getPath (Value.setPath (Value.obj fs) ks v) ks = some v := by
  induction ks generalizing fs with
  | nil => simp [Value.setPath, Value.getPath]
  | cons k ks ih =>
    cases ks with
    | nil => simp [Value.setPath, Value.getPath, objGet_objSet_self]
    | cons k2 ks2 =>
      simp only [Value.setPath, Value.getPath, objGet_objSet_self]
      cases hobj : objGet fs k with
      | none => simpa [hobj] using ih _
      | some w => cases w <;> simpa [hobj] using ih _

theorem reqBody_toValue_data (b : ReqBody) :
    Value.getPath (ReqBody.toValue b) ["data"] = some b.data := by
  obtain ⟨i, f, d, e⟩ := b
  cases i <;> cases f <;>
    simp [ReqBody.toValue, Value.getPath, objGet]

/-- C6: FieldMerger semantics.  For each configured `(targetFieldPath,
sourceField)` pair: a source field that is the literal `"data"` writes the
primary's entire `data` tree at the target path; otherwise the primary's value
at the (dotted) source path is copied to the target path when present, and the
pair is skipped when absent (no null written); target paths auto-vivify
missing intermediates; pairs are processed sequentially; and
`fields = ("data" ↦ "data")` on an empty child yields the whole primary tree
under the key `data`.  (In this pure embedding a copy by value and a copy by
reference denote the same tree, so the by-value clause is not separately
observable.) -/
theorem c6_fieldMerger_semantics :
    (∀ (k : String) (pd : Value) (fs : List (String × Value)),
      Value.getPath (mergeFields [(k, "data")] pd (Value.obj fs)) (splitPath k) = some pd)
    ∧ (∀ (k f : String) (pd cd : Value), f ≠ "data" →
        Value.getPath pd (splitPath f) = none → mergeFields [(k, f)] pd cd = cd)
    ∧ (∀ (k f : String) (pd : Value) (fs : List (String × Value)) (v : Value), f ≠ "data" →
        Value.getPath pd (splitPath f) = some v →
        Value.getPath (mergeFields [(k, f)] pd (Value.obj fs)) (splitPath k) = some v)
    ∧ (∀ pd : Value, mergeFields [("data", "data")] pd (Value.obj []) = Value.obj [("data", pd)])
    ∧ (∀ (kf : String × String) (rest : List (String × String)) (pd cd : Value),
        mergeFields (kf :: rest) pd cd = mergeFields rest pd (mergeFields [kf] pd cd)) := by
  refine ⟨?_, ?_, ?_, ?_, ?_⟩
  · intro k pd fs
    simp [mergeFields, getPath_setPath]
  · intro k f pd cd hf hmiss
    simp [mergeFields, hf, hmiss]
  · intro k f pd fs v hf hget
    simp [mergeFields, hf, hget, getPath_setPath]
  · intro pd
    rfl
  · intro kf rest pd cd
    simp [mergeFields]

/-- C6 witness: the four merge behaviours at concrete inputs. -/
theorem c6_fieldMerger_semantics_witness :
    Value.getPath (mergeFields [("a.b", "data")] (Value.num 7) (Value.obj []))
        (splitPath "a.b") = some (Value.num 7)
    ∧ mergeFields [("x", "missing")] (Value.obj [("a", Value.num 1)]) (Value.obj [])
        = Value.obj []
    ∧ Value.getPath (mergeFields [("x", "a")] (Value.obj [("a", Value.num 1)]) (Value.obj []))
        (splitPath "x") = some (Value.num 1)
    ∧ mergeFields [("data", "data")] (Value.num 3) (Value.obj [])
        = Value.obj [("data", Value.num 3)] :=
  ⟨c6_fieldMerger_semantics.1 "a.b" (Value.num 7) [],
   c6_fieldMerger_semantics.2.1 "x" "missing" (Value.obj [("a", Value.num 1)])
     (Value.obj []) (by decide) rfl,
   c6_fieldMerger_semantics.2.2.1 "x" "a" (Value.obj [("a", Value.num 1)]) []
     (Value.num 1) (by decide) rfl,
   c6_fieldMerger_semantics.2.2.2.1 (Value.num 3)⟩

/-- A user script with no effect: a single empty statement. -/
def uIdent : UserScript := { src := ";", sem := fun d _ => Except.ok d }

def settingsId : Settings :=
  { resource := some "R", property := none, fields := [], transform := some uIdent }

def bodyA : ReqBody :=
  { _id := none, form := none, data := Value.obj [("a", Value.num 1)], externalIds := none }

/-- C3 (amended): the script text handed to the sandbox is the user script
preceded by the prelude `data=submission.data;` and followed by the trailing
expression `data;` — but the prelude rebinds `data` to the `submission`
binding's data, and that binding is the primary request body (`req.body`, the
response carrying no saved item yet in this before-handler), not the merged
child; hence with an effect-free user script the transform stage replaces the
merged child data with the primary submission's data. -/
theorem c3_transform_script_semantics :
    (∀ t : String,
      buildTransformScript t = "data=submission.data;" ++ "\n" ++ t ++ "\n" ++ "data;")
    ∧ (∀ (settings : Settings) (body : ReqBody) (sub : Submission) (u : UserScript),
        settings.transform = some u → u.src ≠ "" →
        u.sem = (fun d _ => Except.ok d) →
        (updateSubmission settings body none sub).data = body.data) := by
  refine ⟨fun t => rfl, ?_⟩
  intro settings body sub u ht hsrc hsem
  simp [updateSubmission, runTransform, ht, hsrc, vmEvaluate, submissionBinding,
        reqBody_toValue_data, hsem]

/-- C3 witness: the amended behaviour at a concrete input. -/
theorem c3_transform_script_semantics_witness :
    (updateSubmission settingsId bodyA none freshSubmission).data = bodyA.data :=
  c3_transform_script_semantics.2 settingsId bodyA freshSubmission uIdent rfl
    (by decide) rfl

/-- C3 counterexample: with no configured field mappings the pre-transform
merged child data is the empty object, yet running an effect-free user script
leaves the child's data equal to the primary's data — not to the merged child
data, refuting the claim that the evaluator's output equals the pre-transform
merged child data when the user script is empty. -/
theorem c3_counterexample :
    (updateSubmission settingsId bodyA none freshSubmission).data
      = Value.obj [("a", Value.num 1)]
    ∧ mergeFields settingsId.fields bodyA.data (Value.obj []) = Value.obj []
    ∧ Value.obj [("a", Value.num 1)] ≠ Value.obj [] := by
  refine ⟨rfl, rfl, ?_⟩
  simp

/-- A user script that always throws (a sandbox throw or timeout surfaces to
the caller the same way: a caught error). -/
def uThrow : UserScript := { src := "throw new Error(1)", sem := fun _ _ => Except.error "boom" }

def settingsThrow : Settings :=
  { resource := some "R", property := none, fields := [("x", "a")], transform := some uThrow }

def bodyA5 : ReqBody :=
  { _id := none, form := none, data := Value.obj [("a", Value.num 5)], externalIds := none }

def reqPostA5 : Request :=
  { method := "POST", skipSave := false, skipResource := false, body := some bodyA5,
    subRequestDepth := 0 }

/-- C4: a transform whose script throws (or times out) is contained — the
child submission keeps the pre-transform merged data — and on a create-style
request with a registered, succeeding handler the pipeline still dispatches
the child save and completes without error. -/
theorem c4_transform_error_contained :
    (∀ (settings : Settings) (body : ReqBody) (resItem : Option Submission)
      (sub : Submission) (u : UserScript) (msg : String),
      settings.transform = some u → u.src ≠ "" →
      (∀ d s, u.sem d s = Except.error msg) →
      (updateSubmission settings body resItem sub).data
        = mergeFields settings.fields body.data
            (match sub.data with
              | Value.null => Value.obj []
              | d => d))
    ∧ (∀ (env : Env) (bound : Nat) (settings : Settings) (req : Request) (body : ReqBody)
        (rid : String) (resource : Resource) (u : UserScript) (msg : String)
        (h : ChildReq → Except String Submission) (saved : Submission),
        req.skipSave = false → req.body = some body → req.method = "POST" →
        settings.resource = some rid → settings.transform = some u → u.src ≠ "" →
        (∀ d s, u.sem d s = Except.error msg) →
        env.loadForm rid = some resource →
        req.subRequestDepth < bound →
        env.handlers "/form/:formId/submission" "post" = some h →
        (∀ c, h c = Except.ok saved) →
        (resolve env bound settings req none).error = none
        ∧ ∃ d, (resolve env bound settings req none).dispatched = some d
            ∧ d.childReq.body.data = mergeFields settings.fields body.data (Value.obj [])) := by
  constructor
  · intro settings body resItem sub u msg ht hsrc herr
    simp [updateSubmission, runTransform, ht, hsrc, vmEvaluate, herr]
  · intro env bound settings req body rid resource u msg h saved
    intro hss hb hm hrid ht hsrc herr hlf hdep hreg hok
    obtain ⟨m, ss, sr, b, dep⟩ := req
    simp only at hss hb hm hdep
    subst hss hb hm
    have hml : methodToLower "POST" = "post" := by decide
    simp [resolve, loadSubmissionStage, saveToResource, createSubRequest, hrid, hlf,
          hdep, hml, dispatchChild, hreg, hok, updateSubmission, runTransform, ht,
          hsrc, vmEvaluate, herr, freshSubmission]

/-- C4 witness: a throwing transform at a concrete create request — the
dispatched child carries the merged (pre-transform) data and the run ends
without error. -/
theorem c4_transform_error_contained_witness :
    (resolve postHandlerEnv 1 settingsThrow reqPostA5 none).error = none
    ∧ ∃ d, (resolve postHandlerEnv 1 settingsThrow reqPostA5 none).dispatched = some d
        ∧ d.childReq.body.data = mergeFields settingsThrow.fields bodyA5.data (Value.obj []) :=
  c4_transform_error_contained.2 postHandlerEnv 1 settingsThrow reqPostA5 bodyA5 "R"
    resourceR uThrow "boom" (fun _ => Except.ok savedChildY) savedChildY rfl rfl rfl rfl
    rfl (by decide) (fun d s => rfl) rfl (by decide) rfl (fun c => rfl)

def reqDeep : Request :=
  { method := "POST", skipSave := false, skipResource := false, body := some bodyEmpty,
    subRequestDepth := 1 }

/-- C1: when cloning the inbound request into a sub-request fails — the clone
depth/ancestry tracked on the parent has reached the bound, for any bound
of at least one — the child-save stage fails with `EREQRECUR` and dispatches
nothing, and the pipeline of a create-style request surfaces `EREQRECUR`. -/
theorem c1_recursion_guard :
    (∀ (env : Env) (bound : Nat) (req : Request) (resource : Resource) (cs : Submission),
      1 ≤ bound → bound ≤ req.subRequestDepth →
      saveToResource env bound req resource (some cs)
        = (none, Except.error ecode.EREQRECUR))
    ∧ (∀ (env : Env) (bound : Nat) (settings : Settings) (req : Request) (body : ReqBody)
        (rid : String) (resource : Resource) (resItem0 : Option Submission),
        req.skipSave = false → req.body = some body → req.method = "POST" →
        settings.resource = some rid → env.loadForm rid = some resource →
        1 ≤ bound → bound ≤ req.subRequestDepth →
        (resolve env bound settings req resItem0).error = some ecode.EREQRECUR
        ∧ (resolve env bound settings req resItem0).dispatched = none) := by
  constructor
  · intro env bound req resource cs hb hd
    simp [saveToResource, createSubRequest, Nat.not_lt.mpr hd]
  · intro env bound settings req body rid resource resItem0 hss hb hm hrid hlf hbd hd
    obtain ⟨m, ss, sr, b, dep⟩ := req
    simp only at hss hb hm hd
    subst hss hb hm
    simp [resolve, loadSubmissionStage, saveToResource, createSubRequest, hrid, hlf,
          Nat.not_lt.mpr hd]

/-- C1 witness: bound one, parent already one level deep — the stage and the
pipeline fail with `EREQRECUR` and nothing is dispatched. -/
theorem c1_recursion_guard_witness :
    saveToResource emptyEnv 1 reqDeep resourceR (some freshSubmission)
      = (none, Except.error ecode.EREQRECUR)
    ∧ (resolve postHandlerEnv 1 settingsR reqDeep none).error = some ecode.EREQRECUR :=
  ⟨c1_recursion_guard.1 emptyEnv 1 reqDeep resourceR freshSubmission (by decide) (by decide),
   (c1_recursion_guard.2 postHandlerEnv 1 settingsR reqDeep bodyEmpty "R" resourceR none
     rfl rfl rfl rfl rfl (by decide) (by decide)).1⟩

def bodyNoId : ReqBody :=
  { _id := none, form := some "F", data := Value.obj [], externalIds := none }

def reqPutNoId : Request :=
  { method := "PUT", skipSave := false, skipResource := false, body := some bodyNoId,
    subRequestDepth := 0 }

/-- C2 counterexample: a PUT whose primary body lacks `_id` does not fail with
`ENOIDP` — the pipeline ends without error and without a child save (the
stage is a no-op at SaveSubmission.js line 242). -/
theorem c2_counterexample :
    (resolve postHandlerEnv 1 settingsR reqPutNoId none).error = none
    ∧ (resolve postHandlerEnv 1 settingsR reqPutNoId none).dispatched = none
    ∧ (resolve postHandlerEnv 1 settingsR reqPutNoId none).error ≠ some ecode.ENOIDP := by
  refine ⟨rfl, rfl, ?_⟩
  decide

/-- C2 (amended): `ENOIDP` guards the child body, not the primary one — a PUT
whose child submission (the body handed to `saveToResource`) lacks `_id`
fails with `ENOIDP` and dispatches nothing, whereas a PUT whose primary body
lacks `_id` is a no-op: no child save is attempted and no error is raised. -/
theorem c2_enoidp_semantics :
    (∀ (env : Env) (bound : Nat) (req : Request) (resource : Resource) (cs : Submission),
      methodToLower req.method = "put" → req.subRequestDepth < bound → cs._id = none →
      saveToResource env bound req resource (some cs)
        = (none, Except.error ecode.ENOIDP))
    ∧ (∀ (env : Env) (bound : Nat) (settings : Settings) (req : Request) (body : ReqBody)
        (rid : String) (resource : Resource) (resItem0 : Option Submission),
        req.skipSave = false → req.body = some body → req.method = "PUT" →
        settings.resource = some rid → env.loadForm rid = some resource →
        body._id = none →
        (resolve env bound settings req resItem0).error = none
        ∧ (resolve env bound settings req resItem0).dispatched = none) := by
  constructor
  · intro env bound req resource cs hml hdep hid
    simp [saveToResource, createSubRequest, hdep, hml, hid]
  · intro env bound settings req body rid resource resItem0 hss hb hm hrid hlf hid
    obtain ⟨m, ss, sr, b, dep⟩ := req
    simp only at hss hb hm
    subst hss hb hm
    simp [resolve, loadSubmissionStage, hrid, hlf, hid]

/-- C2 witness: the amended behaviour at concrete inputs — a child body
without `_id` yields `ENOIDP`, a primary PUT body without `_id` is a no-op. -/
theorem c2_enoidp_semantics_witness :
    saveToResource emptyEnv 1 reqPutNoId resourceR (some freshSubmission)
      = (none, Except.error ecode.ENOIDP)
    ∧ (resolve postHandlerEnv 1 settingsR reqPutNoId none).dispatched = none :=
  ⟨c2_enoidp_semantics.1 emptyEnv 1 reqPutNoId resourceR freshSubmission (by decide)
    (by decide) rfl,
   (c2_enoidp_semantics.2 postHandlerEnv 1 settingsR reqPutNoId bodyNoId "R" resourceR
     none rfl rfl rfl rfl rfl rfl).2⟩

def bodyDup : ReqBody :=
  { _id := none, form := none, data := Value.obj [],
    externalIds := some [{ type := "resource", resource := "R", id := "x" }] }

def reqDup : Request :=
  { method := "POST", skipSave := false, skipResource := false, body := some bodyDup,
    subRequestDepth := 0 }

/-- C5 counterexample: a POST whose body already carries an external id record
for the configured resource ends the run with two records for that resource —
the append at SaveSubmission.js line 175 never checks for an existing record,
refuting the never-duplicating clause. -/
theorem c5_counterexample :
    ((resolve postHandlerEnv 1 settingsR reqDup none).req.body).map ReqBody.externalIds
      = some (some [{ type := "resource", resource := "R", id := "x" },
                    { type := "resource", resource := "R", id := "y" }])
    ∧ bodyDup.externalIds = some [{ type := "resource", resource := "R", id := "x" }] := by
  constructor <;> rfl

/-- C5 (amended): on a POST where a child was saved, exactly one record
`(type resource, resource settings.resource, id childId)` is appended to the
primary body's external ids — unconditionally, without checking for an
already-present record for the same resource; any other method never appends,
and in particular a PUT run leaves the body's external ids unchanged. -/
theorem c5_externalIds_append :
    (∀ (settings : Settings) (rid : String) (body : ReqBody) (cs saved : Submission)
      (cid : String), saved._id = some cid →
      (assignResource settings rid "POST" body (some saved) cs).externalIds
        = some ((match body.externalIds with
            | some xs => xs
            | none => []) ++
          [{ type := "resource", resource := rid, id := cid }]))
    ∧ (∀ (settings : Settings) (rid method : String) (body : ReqBody)
        (resItem : Option Submission) (cs : Submission), method ≠ "POST" →
        (assignResource settings rid method body resItem cs).externalIds
          = body.externalIds)
    ∧ (∀ (env : Env) (bound : Nat) (settings : Settings) (req : Request)
        (resItem0 : Option Submission), req.method = "PUT" →
        ((resolve env bound settings req resItem0).req.body).map ReqBody.externalIds
          = req.body.map ReqBody.externalIds) := by
  refine ⟨?_, ?_, ?_⟩
  · intro settings rid body cs saved cid hid
    cases hp : settings.property <;> simp [assignResource, hp, hid]
  · intro settings rid method body resItem cs h
    cases resItem <;> cases hp : settings.property <;> simp [assignResource, hp, h]
  · intro env bound settings req resItem0 hm
    obtain ⟨m, ss, sr, b, dep⟩ := req
    simp only at hm
    subst hm
    cases ss with
    | true => rfl
    | false =>
      cases b with
      | none => rfl
      | some body =>
        rcases hrid : settings.resource with _ | rid
        · simp [resolve, hrid, passThrough]
        · rcases hlf : env.loadForm rid with _ | resource
          · simp [resolve, hrid, hlf]
          · rcases hstage : loadSubmissionStage env settings rid
                { method := "PUT", skipSave := false, skipResource := true,
                  body := some body, subRequestDepth := dep } body resItem0 with ⟨st, sl⟩
            rcases st with e | _ | cs
            · simp [resolve, hrid, hlf, hstage]
            · simp [resolve, hrid, hlf, hstage]
            · rcases hsave : saveToResource env bound
                  { method := "PUT", skipSave := false, skipResource := true,
                    body := some body, subRequestDepth := dep } resource (some cs)
                with ⟨disp, e | savedOpt⟩
              · simp [resolve, hrid, hlf, hstage, hsave]
              · cases hp : settings.property <;>
                  simp [resolve, hrid, hlf, hstage, hsave, assignResource, hp] <;>
                  cases savedOpt <;> cases resItem0 <;> simp

/-- C5 witness: the amended append and non-append behaviours at concrete
inputs. -/
theorem c5_externalIds_append_witness :
    (assignResource settingsR "R" "POST" bodyDup (some savedChildY) freshSubmission).externalIds
      = some ([{ type := "resource", resource := "R", id := "x" }] ++
          [{ type := "resource", resource := "R", id := "y" }])
    ∧ (assignResource settingsR "R" "PUT" bodyDup none freshSubmission).externalIds
      = bodyDup.externalIds
    ∧ ((resolve emptyEnv 1 settingsR reqPutNoId none).req.body).map ReqBody.externalIds
      = reqPutNoId.body.map ReqBody.externalIds :=
  ⟨c5_externalIds_append.1 settingsR "R" bodyDup freshSubmission savedChildY "y" rfl,
   c5_externalIds_append.2.1 settingsR "R" "PUT" bodyDup none freshSubmission (by decide),
   c5_externalIds_append.2.2 emptyEnv 1 settingsR reqPutNoId none rfl⟩

def primaryNoLink : Submission :=
  { _id := some "p", data := Value.obj [], roles := [],
    externalIds := [{ type := "resource", resource := "OTHER", id := "z" }] }

def primaryLinked : Submission :=
  { _id := some "p", data := Value.obj [], roles := [],
    externalIds := [{ type := "resource", resource := "R", id := "c1" }] }

/-- An environment that serves the primary submission `(F, p)` with no
external id record for resource `R`. -/
def envNoLink : Env :=
  { loadForm := fun _ => some resourceR,
    loadSubmission := fun f i => if f = "F" ∧ i = "p" then some primaryNoLink else none,
    handlers := fun _ _ => none }

/-- An environment that serves the primary submission `(F, p)` linked to the
child `(R, c1)`, while the child itself is missing. -/
def envChildGone : Env :=
  { loadForm := fun _ => some resourceR,
    loadSubmission := fun f i => if f = "F" ∧ i = "p" then some primaryLinked else none,
    handlers := fun _ _ => none }

def bodyPut : ReqBody :=
  { _id := some "p", form := some "F", data := Value.obj [], externalIds := none }

def reqPut : Request :=
  { method := "PUT", skipSave := false, skipResource := false, body := some bodyPut,
    subRequestDepth := 0 }

/-- C7: on a PUT, each of the three situations — primary body without an id or
without a form reference, loaded primary submission without an external id
record matching the configured resource, and missing linked child submission —
is a no-op: the pipeline ends without error, dispatches nothing and leaves
the request body untouched. -/
theorem c7_put_noop_cases :
    (∀ (env : Env) (bound : Nat) (settings : Settings) (req : Request) (b : ReqBody)
      (rid : String) (resource : Resource) (resItem0 : Option Submission),
      req.skipSave = false → req.body = some b → req.method = "PUT" →
      settings.resource = some rid → env.loadForm rid = some resource →
      (b._id = none ∨ b.form = none) →
      (resolve env bound settings req resItem0).error = none
      ∧ (resolve env bound settings req resItem0).dispatched = none
      ∧ (resolve env bound settings req resItem0).req.body = req.body)
    ∧ (∀ (env : Env) (bound : Nat) (settings : Settings) (req : Request) (b : ReqBody)
        (rid i fm : String) (resource : Resource) (cur : Submission)
        (resItem0 : Option Submission),
        req.skipSave = false → req.body = some b → req.method = "PUT" →
        settings.resource = some rid → env.loadForm rid = some resource →
        b._id = some i → b.form = some fm →
        env.loadSubmission fm i = some cur →
        findExternal cur.externalIds rid = none →
        (resolve env bound settings req resItem0).error = none
        ∧ (resolve env bound settings req resItem0).dispatched = none
        ∧ (resolve env bound settings req resItem0).req.body = req.body)
    ∧ (∀ (env : Env) (bound : Nat) (settings : Settings) (req : Request) (b : ReqBody)
        (rid i fm : String) (resource : Resource) (cur : Submission) (ext : ExternalId)
        (resItem0 : Option Submission),
        req.skipSave = false → req.body = some b → req.method = "PUT" →
        settings.resource = some rid → env.loadForm rid = some resource →
        b._id = some i → b.form = some fm →
        env.loadSubmission fm i = some cur →
        findExternal cur.externalIds rid = some ext →
        env.loadSubmission rid ext.id = none →
        (resolve env bound settings req resItem0).error = none
        ∧ (resolve env bound settings req resItem0).dispatched = none
        ∧ (resolve env bound settings req resItem0).req.body = req.body) := by
  refine ⟨?_, ?_, ?_⟩
  · intro env bound settings req b rid resource resItem0 hss hb hm hrid hlf hid
    obtain ⟨m, ss, sr, bo, dep⟩ := req
    simp only at hss hb hm
    subst hss hb hm
    simp [resolve, loadSubmissionStage, hrid, hlf, hid]
  · intro env bound settings req b rid i fm resource cur resItem0 hss hb hm hrid hlf
    intro hid hfm hcur hfind
    obtain ⟨m, ss, sr, bo, dep⟩ := req
    simp only at hss hb hm
    subst hss hb hm
    simp [resolve, loadSubmissionStage, hrid, hlf, hid, hfm, hcur, hfind]
  · intro env bound settings req b rid i fm resource cur ext resItem0 hss hb hm hrid hlf
    intro hid hfm hcur hfind hchild
    obtain ⟨m, ss, sr, bo, dep⟩ := req
    simp only at hss hb hm
    subst hss hb hm
    simp [resolve, loadSubmissionStage, hrid, hlf, hid, hfm, hcur, hfind, hchild]

/-- C7 witness: the three no-op situations at concrete inputs. -/
theorem c7_put_noop_cases_witness :
    (resolve postHandlerEnv 1 settingsR reqPutNoId none).error = none
    ∧ (resolve envNoLink 1 settingsR reqPut none).dispatched = none
    ∧ (resolve envChildGone 1 settingsR reqPut none).error = none :=
  ⟨(c7_put_noop_cases.1 postHandlerEnv 1 settingsR reqPutNoId bodyNoId "R" resourceR none
      rfl rfl rfl rfl rfl (Or.inl rfl)).1,
   (c7_put_noop_cases.2.1 envNoLink 1 settingsR reqPut bodyPut "R" "p" "F" resourceR
      primaryNoLink none rfl rfl rfl rfl rfl rfl rfl rfl (by decide)).2.1,
   (c7_put_noop_cases.2.2 envChildGone 1 settingsR reqPut bodyPut "R" "p" "F" resourceR
      primaryLinked { type := "resource", resource := "R", id := "c1" } none
      rfl rfl rfl rfl rfl rfl rfl rfl (by decide) rfl).1⟩

def settingsNoRes : Settings :=
  { resource := none, property := none, fields := [], transform := none }

def reqSkipRes : Request :=
  { method := "POST", skipSave := false, skipResource := true, body := some bodyEmpty,
    subRequestDepth := 0 }

/-- C8 counterexample: with `settings.resource` unset the pipeline does end at
once with no loads, no dispatch and no error, but the request object is not
left unchanged — `req.skipResource` is assigned `false` (SaveSubmission.js
line 68) before the settings check, refuting the pure pass-through clause. -/
theorem c8_counterexample :
    (resolve emptyEnv 1 settingsNoRes reqSkipRes none).error = none
    ∧ (resolve emptyEnv 1 settingsNoRes reqSkipRes none).formLoads = 0
    ∧ (resolve emptyEnv 1 settingsNoRes reqSkipRes none).subLoads = 0
    ∧ (resolve emptyEnv 1 settingsNoRes reqSkipRes none).dispatched = none
    ∧ reqSkipRes.skipResource = true
    ∧ (resolve emptyEnv 1 settingsNoRes reqSkipRes none).req.skipResource = false
    ∧ (resolve emptyEnv 1 settingsNoRes reqSkipRes none).req ≠ reqSkipRes := by
  refine ⟨rfl, rfl, rfl, rfl, rfl, rfl, fun h => ?_⟩
  exact Bool.noConfusion (congrArg Request.skipResource h)

/-- C8 (amended): when the request opts out of saving, has no body, or uses a
method other than POST/PUT/PATCH, `resolve` is a pure pass-through — no
loads, no dispatch, no error, request unchanged; when those gates pass but
`settings.resource` is unset, `resolve` performs no loads, no dispatch and no
error, and leaves the request unchanged except that `skipResource` is set to
`false`. -/
theorem c8_applicability_gates :
    (∀ (env : Env) (bound : Nat) (settings : Settings) (req : Request)
      (resItem0 : Option Submission),
      (req.skipSave = true ∨ req.body = none ∨
        (req.method ≠ "POST" ∧ req.method ≠ "PUT" ∧ req.method ≠ "PATCH")) →
      resolve env bound settings req resItem0 = passThrough req resItem0)
    ∧ (∀ (env : Env) (bound : Nat) (settings : Settings) (req : Request)
        (resItem0 : Option Submission) (b : ReqBody),
        req.skipSave = false → req.body = some b →
        (req.method = "POST" ∨ req.method = "PUT" ∨ req.method = "PATCH") →
        settings.resource = none →
        resolve env bound settings req resItem0
          = passThrough { req with skipResource := false } resItem0) := by
  constructor
  · intro env bound settings req resItem0 hgate
    obtain ⟨m, ss, sr, b, dep⟩ := req
    rcases hgate with hss | hb | hm
    · simp only at hss
      subst hss
      rfl
    · simp only at hb
      subst hb
      cases ss <;> rfl
    · simp only at hm
      cases ss with
      | true => rfl
      | false =>
        cases b with
        | none => rfl
        | some body => simp [resolve, hm]
  · intro env bound settings req resItem0 b hss hb hm hrid
    obtain ⟨m, ss, sr, bo, dep⟩ := req
    simp only at hss hb
    subst hss hb
    rcases hm with hm | hm | hm <;> (simp only at hm; subst hm; simp [resolve, hrid])

/-- C8 witness: the gates at concrete inputs — a DELETE request passes
through untouched, and an unset resource setting only rewrites
`skipResource`. -/
theorem c8_applicability_gates_witness :
    resolve emptyEnv 1 settingsR
        { method := "DELETE", skipSave := false, skipResource := true,
          body := some bodyEmpty, subRequestDepth := 0 } none
      = passThrough
          { method := "DELETE", skipSave := false, skipResource := true,
            body := some bodyEmpty, subRequestDepth := 0 } none
    ∧ resolve emptyEnv 1 settingsNoRes reqSkipRes none
      = passThrough { reqSkipRes with skipResource := false } none :=
  ⟨c8_applicability_gates.1 emptyEnv 1 settingsR
      { method := "DELETE", skipSave := false, skipResource := true,
        body := some bodyEmpty, subRequestDepth := 0 } none
      (Or.inr (Or.inr (by decide))),
   c8_applicability_gates.2 emptyEnv 1 settingsNoRes reqSkipRes none bodyEmpty rfl rfl
      (Or.inl rfl) rfl⟩

def reqPost : Request :=
  { method := "POST", skipSave := false, skipResource := false, body := some bodyEmpty,
    subRequestDepth := 0 }

/-- C9: the built child save request is routed to exactly the handler the
registry holds for the resolved url and lowercased method — the base
submission endpoint, or the update-by-id endpoint for `put` — and when the
registry holds no handler for that pair the stage, and with it the pipeline,
fails with the fatal `ENOHANDLER`. -/
theorem c9_dispatch_registry :
    (∀ (env : Env) (bound : Nat) (req : Request) (resource : Resource) (cs : Submission),
      req.subRequestDepth < bound → methodToLower req.method ≠ "put" →
      env.handlers "/form/:formId/submission" (methodToLower req.method) = none →
      saveToResource env bound req resource (some cs)
        = (none, Except.error ecode.ENOHANDLER))
    ∧ (∀ (env : Env) (bound : Nat) (req : Request) (resource : Resource) (cs : Submission)
        (i : String),
        req.subRequestDepth < bound → methodToLower req.method = "put" → cs._id = some i →
        env.handlers "/form/:formId/submission/:submissionId" "put" = none →
        saveToResource env bound req resource (some cs)
          = (none, Except.error ecode.ENOHANDLER))
    ∧ (∀ (env : Env) (bound : Nat) (req : Request) (resource : Resource) (cs : Submission)
        (h : ChildReq → Except String Submission),
        req.subRequestDepth < bound → methodToLower req.method ≠ "put" →
        env.handlers "/form/:formId/submission" (methodToLower req.method) = some h →
        ∃ c : ChildReq, c.body = cs ∧ c.formId = resource._id
          ∧ c.url = "/form/:formId/submission"
          ∧ saveToResource env bound req resource (some cs)
            = (some { url := "/form/:formId/submission",
                      method := methodToLower req.method, childReq := c },
               match h c with
               | Except.ok s => Except.ok (some s)
               | Except.error e => Except.error e))
    ∧ (∀ (env : Env) (bound : Nat) (req : Request) (resource : Resource) (cs : Submission)
        (i : String) (h : ChildReq → Except String Submission),
        req.subRequestDepth < bound → methodToLower req.method = "put" → cs._id = some i →
        env.handlers "/form/:formId/submission/:submissionId" "put" = some h →
        ∃ c : ChildReq, c.body = cs ∧ c.formId = resource._id
          ∧ c.url = "/form/:formId/submission/:submissionId"
          ∧ saveToResource env bound req resource (some cs)
            = (some { url := "/form/:formId/submission/:submissionId",
                      method := "put", childReq := c },
               match h c with
               | Except.ok s => Except.ok (some s)
               | Except.error e => Except.error e))
    ∧ (∀ (env : Env) (bound : Nat) (settings : Settings) (req : Request) (body : ReqBody)
        (rid : String) (resource : Resource) (resItem0 : Option Submission),
        req.skipSave = false → req.body = some body → req.method = "POST" →
        settings.resource = some rid → env.loadForm rid = some resource →
        req.subRequestDepth < bound →
        env.handlers "/form/:formId/submission" "post" = none →
        (resolve env bound settings req resItem0).error = some ecode.ENOHANDLER
        ∧ (resolve env bound settings req resItem0).dispatched = none) := by
  refine ⟨?_, ?_, ?_, ?_, ?_⟩
  · intro env bound req resource cs hdep hput hreg
    simp [saveToResource, createSubRequest, hdep, hput, dispatchChild, hreg]
  · intro env bound req resource cs i hdep hput hid hreg
    simp [saveToResource, createSubRequest, hdep, hput, hid, dispatchChild, hreg]
  · intro env bound req resource cs h hdep hput hreg
    refine ⟨{ permissionsChecked := true, noResponse := true, body := cs,
              formId := resource._id, subId := none, url := "/form/:formId/submission",
              method := methodToUpper (methodToLower req.method),
              depth := req.subRequestDepth + 1 }, rfl, rfl, rfl, ?_⟩
    simp only [saveToResource, createSubRequest, if_pos hdep, if_neg hput,
               dispatchChild, hreg]
    cases h { permissionsChecked := true, noResponse := true, body := cs,
              formId := resource._id, subId := none, url := "/form/:formId/submission",
              method := methodToUpper (methodToLower req.method),
              depth := req.subRequestDepth + 1 } <;> simp
  · intro env bound req resource cs i h hdep hput hid hreg
    refine ⟨{ permissionsChecked := true, noResponse := true, body := cs,
              formId := resource._id, subId := some i,
              url := "/form/:formId/submission/:submissionId",
              method := methodToUpper "put",
              depth := req.subRequestDepth + 1 }, rfl, rfl, rfl, ?_⟩
    simp [saveToResource, createSubRequest, hdep, hput, hid, dispatchChild, hreg]
    cases h { permissionsChecked := true, noResponse := true, body := cs,
              formId := resource._id, subId := some i,
              url := "/form/:formId/submission/:submissionId",
              method := methodToUpper "put",
              depth := req.subRequestDepth + 1 } <;> simp
  · intro env bound settings req body rid resource resItem0 hss hb hm hrid hlf hdep hreg
    obtain ⟨m, ss, sr, b, dep⟩ := req
    simp only at hss hb hm hdep
    subst hss hb hm
    have hml : methodToLower "POST" = "post" := by decide
    simp [resolve, loadSubmissionStage, saveToResource, createSubRequest, hrid, hlf,
          hdep, hml, dispatchChild, hreg]

/-- C9 witness: a registry without the create endpoint yields `ENOHANDLER` at
the stage and pipeline level; a registry with it receives the dispatch. -/
theorem c9_dispatch_registry_witness :
    saveToResource envNoLink 1 reqPost resourceR (some freshSubmission)
      = (none, Except.error ecode.ENOHANDLER)
    ∧ (∃ c : ChildReq, c.body = freshSubmission ∧ c.formId = resourceR._id
        ∧ c.url = "/form/:formId/submission"
        ∧ saveToResource postHandlerEnv 1 reqPost resourceR (some freshSubmission)
          = (some { url := "/form/:formId/submission",
                    method := methodToLower reqPost.method, childReq := c },
             match (fun _ => Except.ok savedChildY : ChildReq → Except String Submission) c with
             | Except.ok s => Except.ok (some s)
             | Except.error e => Except.error e))
    ∧ (resolve envNoLink 1 settingsR reqPost none).error = some ecode.ENOHANDLER :=
  ⟨c9_dispatch_registry.1 envNoLink 1 reqPost resourceR freshSubmission (by decide)
      (by decide) rfl,
   c9_dispatch_registry.2.2.1 postHandlerEnv 1 reqPost resourceR freshSubmission
      (fun _ => Except.ok savedChildY) (by decide) (by decide) rfl,
   (c9_dispatch_registry.2.2.2.2 envNoLink 1 settingsR reqPost bodyEmpty "R" resourceR
      none rfl rfl rfl rfl rfl (by decide) rfl).1⟩

/-- An environment whose registry serves only the patch method on the base
submission endpoint. -/
def patchHandlerEnv : Env :=
  { loadForm := fun _ => some resourceR,
    loadSubmission := fun _ _ => none,
    handlers := fun url m =>
      if url = "/form/:formId/submission" ∧ m = "patch" then
        some (fun _ => Except.ok savedChildY)
      else none }

def reqPatch : Request :=
  { method := "PATCH", skipSave := false, skipResource := false, body := some bodyDup,
    subRequestDepth := 0 }

/-- C10: a PATCH with a configured resource takes the create-style branch — a
fresh child submission is built, merged and transformed, and dispatched with
the lowercased method `patch` — yet the external id append is gated on the
method `POST`, so the run ends without error and with the primary body's
external ids unchanged: the saved child is never linked back. -/
theorem c10_patch_create_branch_no_link :
    ∀ (env : Env) (bound : Nat) (settings : Settings) (req : Request) (body : ReqBody)
      (rid : String) (resource : Resource) (resItem0 : Option Submission)
      (h : ChildReq → Except String Submission) (saved : Submission),
      req.skipSave = false → req.body = some body → req.method = "PATCH" →
      settings.resource = some rid → env.loadForm rid = some resource →
      req.subRequestDepth < bound →
      env.handlers "/form/:formId/submission" "patch" = some h →
      (∀ c, h c = Except.ok saved) →
      (resolve env bound settings req resItem0).error = none
      ∧ (∃ d, (resolve env bound settings req resItem0).dispatched = some d
          ∧ d.method = "patch"
          ∧ d.childReq.body = updateSubmission settings body resItem0 freshSubmission)
      ∧ ((resolve env bound settings req resItem0).req.body).map ReqBody.externalIds
          = some body.externalIds := by
  intro env bound settings req body rid resource resItem0 h saved
  intro hss hb hm hrid hlf hdep hreg hok
  obtain ⟨m, ss, sr, b, dep⟩ := req
  simp only at hss hb hm hdep
  subst hss hb hm
  have hml : methodToLower "PATCH" = "patch" := by decide
  refine ⟨?_, ?_, ?_⟩ <;>
    simp [resolve, loadSubmissionStage, saveToResource, createSubRequest, hrid, hlf,
          hdep, hml, dispatchChild, hreg, hok, assignResource] <;>
    cases hp : settings.property <;> simp [hp]

/-- C10 witness: a concrete PATCH run — the dispatch goes to the patch
handler with the freshly built child, and the body's pre-existing external
ids are returned unchanged. -/
theorem c10_patch_create_branch_no_link_witness :
    (resolve patchHandlerEnv 1 settingsR reqPatch none).error = none
    ∧ (∃ d, (resolve patchHandlerEnv 1 settingsR reqPatch none).dispatched = some d
        ∧ d.method = "patch"
        ∧ d.childReq.body = updateSubmission settingsR bodyDup none freshSubmission)
    ∧ ((resolve patchHandlerEnv 1 settingsR reqPatch none).req.body).map ReqBody.externalIds
        = some bodyDup.externalIds :=
  c10_patch_create_branch_no_link patchHandlerEnv 1 settingsR reqPatch bodyDup "R"
    resourceR none (fun _ => Except.ok savedChildY) savedChildY rfl rfl rfl rfl rfl
    (by decide) rfl (fun c => rfl)
